import Mathlib

/-!
Verification of the Blossom generative-tree sketch.

The repository contains two variants of the sketch:
* `src/components/GenerativeTree.tsx` — embedded below in namespace `GT`;
* `src/unnamed/part_000` (an earlier variant of the same component) —
  embedded in namespace `V0`.

JavaScript numbers are modelled as exact rationals (`ℚ`).  Calls to
`p.random(...)` and to transcendental p5 helpers (`cos`, `sin`, `atan2`,
`millis`, `sqrt` via `** 0.5`, the π-based angle wrap) are modelled as
explicit oracle inputs, packaged per call site in `RandPack`/`CtorRand`
structures, so every definition is a pure executable function of its inputs.
Euclidean-distance comparisons `dist p q < r` (with `r ≥ 0`) are embedded as
the equivalent squared comparisons `distSq p q < r ^ 2`, which avoids square
roots while preserving every branch decision exactly.
-/

namespace Blossom

/-- `ParticleType` from `src/unnamed/part_001` (`types.ts`). -/
inductive ParticleType
  | TRUNK
  | BRANCH
  | TWIG
  | FLOWER
  | COLLECTED
deriving DecidableEq

/-- A 2-D point (`{x, y}` objects and `p5.Vector` positions). -/
structure Point where
  x : ℚ
  y : ℚ
deriving DecidableEq

/-- p5's `lerp(a, b, t) = a + (b - a) * t`. -/
def lerp (a b t : ℚ) : ℚ := a + (b - a) * t

/-- p5's `map(v, a, b, c, d)` without bounds: `c + (d-c) * (v-a)/(b-a)`. -/
def mapR (v a b c d : ℚ) : ℚ := c + (d - c) * ((v - a) / (b - a))

/-- p5's `constrain(v, lo, hi) = max(min(v, hi), lo)`. -/
def constrain (v lo hi : ℚ) : ℚ := max (min v hi) lo

/-- p5's `map(v, a, b, c, d, true)` for an increasing target range `c < d`:
the unclamped map constrained to `[c, d]`. -/
def mapClamped (v a b c d : ℚ) : ℚ := constrain (mapR v a b c d) c d

/-- Squared Euclidean distance; `dist x1 y1 x2 y2 < r` (for `r ≥ 0`) is
embedded as `distSq x1 y1 x2 y2 < r ^ 2`. -/
def distSq (x1 y1 x2 y2 : ℚ) : ℚ := (x2 - x1) ^ 2 + (y2 - y1) ^ 2

/-- The sketch's `randNeg` helper applied to a magnitude: returns `n` or
`-n` according to the boolean drawn from `p.random() < 0.5`. -/
def randNeg (pos : Bool) (n : ℚ) : ℚ := if pos then n else -n

namespace GT

/-- Particle state of the `GenerativeTree.tsx` `Particle` class. -/
structure Particle where
  pos : Point
  col : ℕ
  stamenCol : ℕ
  siz : ℚ
  asiz : ℚ
  rsiz : ℚ
  dir : ℚ
  spd : ℚ
  life : ℚ
  lifespan : ℚ
  tag : ParticleType
  rotationOffset : ℚ
  currentRotation : ℚ
  targetScale : ℚ
  currentScale : ℚ
  lastHoveredTime : ℚ
  isBloomed : Bool
  interactionRotation : ℚ
deriving DecidableEq

/-- Oracle draws consumed by the `Particle` constructor: the stamen colour
pick, `p.random(0.25, 2)` for the speed, and `p.random(TWO_PI)` for the
rotation offset. -/
structure CtorRand where
  stamen : ℕ
  rSpd : ℚ
  rRot : ℚ
deriving DecidableEq

/-- The `Particle` constructor of `GenerativeTree.tsx` (lines 125–157). -/
def mkParticle (sx sy : ℚ) (col : ℕ) (ss sd sl ls : ℚ) (tag : ParticleType)
    (cr : CtorRand) : Particle :=
  let siz : ℚ := if tag = ParticleType.FLOWER then 0 else 1
  let spd0 : ℚ := if tag = ParticleType.TRUNK then 2 else cr.rSpd
  { pos := ⟨sx, sy⟩
    col := col
    stamenCol := cr.stamen
    siz := siz
    asiz := ss
    rsiz := ss * siz
    dir := sd
    spd := if tag = ParticleType.FLOWER then 0 else spd0
    life := sl
    lifespan := ls
    tag := tag
    rotationOffset := cr.rRot
    currentRotation := cr.rRot
    targetScale := 1
    currentScale := 1
    lastHoveredTime := -1000
    isBloomed := false
    interactionRotation := 0 }

/-- Per-frame ambient values read by `update`. -/
structure Env where
  frameCount : ℕ
  width : ℚ
  height : ℚ
  millis : ℚ

/-- Oracle draws consumed by one call to `Particle.update`:
`jitter = p.random(-1, 1)`, `taper = p.random(0.015)`, the cosine/sine of
the current heading (`c`, `s`), the three spawn-chance draws, the
`randNeg(p.random(..))` angle draws, `twigLife = p.random(lifespan * 0.05)`,
`sqrtSiz` standing for `siz ** 0.5`, `rotNorm` standing for the π-wrapped
`interactionRotation - currentRotation` difference, and the constructor
draws of up to three children. -/
structure RandPack where
  jitter : ℚ
  taper : ℚ
  c : ℚ
  s : ℚ
  rBranch : ℚ
  branchPos : Bool
  branchMag : ℚ
  rFork : ℚ
  rTwig : ℚ
  twigPos : Bool
  twigMag : ℚ
  twigLife : ℚ
  sqrtSiz : ℚ
  rotNorm : ℚ
  crBranch : CtorRand
  crFork : CtorRand
  crTwig : CtorRand

/-- Result of one `Particle.update` call: the mutated particle, the boolean
the method returns (`true` = dead), the children pushed onto `parts`, and
the updated `treePositions` list. -/
structure UpdRes where
  self : Particle
  dead : Bool
  kids : List Particle
  tp : List Point

/-- `Particle.update` of `GenerativeTree.tsx` (lines 159–273). -/
def update (env : Env) (r : RandPack) (tp : List Point) (q0 : Particle) :
    UpdRes :=
  let q := { q0 with life := q0.life + 1 }
  if q.tag = ParticleType.FLOWER then
    -- FLOWER LOGIC (lines 162–199): grow in, hover animation, never dies.
    let siz1 := if q.siz < 1 then
        (let t := q.siz + 1 / 10; if t > 1 then 1 else t)
      else q.siz
    let q1 := { q with siz := siz1 }
    let timeSinceHover := env.millis - q1.lastHoveredTime
    let q2 :=
      if timeSinceHover < 200 then
        { q1 with targetScale := 5 / 2
                  isBloomed := true
                  currentRotation := q1.currentRotation + r.rotNorm * (1 / 10) }
      else if q1.isBloomed then
        { q1 with targetScale := 5 / 2 }
      else
        { q1 with targetScale := 1
                  currentRotation :=
                    lerp q1.currentRotation q1.rotationOffset (1 / 20) }
    let q3 := { q2 with currentScale := lerp q2.currentScale q2.targetScale (1 / 10) }
    ⟨q3, false, [], tp⟩
  else
    -- TREE LOGIC (lines 201–272).
    let rsiz := q.asiz * q.siz
    let pos1 : Point := ⟨q.pos.x + r.c * q.spd, q.pos.y + r.s * q.spd⟩
    let jitterMult :=
      if q.tag = ParticleType.TRUNK ∧ q.siz > 9 / 10 then 1
      else mapR q.life 0 q.lifespan 1 5
    let dir1 := q.dir + r.jitter * jitterMult
    let siz1 := lerp q.siz 0 r.taper
    let q1 := { q with rsiz := rsiz, pos := pos1, dir := dir1, siz := siz1 }
    if rsiz < 1 / 10 ∨ q.spd > rsiz then
      ⟨q1, true, [], tp⟩
    else
      let tp1 :=
        if env.frameCount % 5 = 0 ∧ pos1.y < env.height * (7 / 10) then
          tp ++ [pos1]
        else tp
      let kids1 : List Particle :=
        if r.rBranch < 3 / 100 ∧ q.tag = ParticleType.TRUNK ∧ siz1 < 11 / 20 then
          [mkParticle pos1.x pos1.y q.col rsiz
            (dir1 + randNeg r.branchPos r.branchMag) q1.life q.lifespan
            ParticleType.BRANCH r.crBranch]
        else []
      let kids2 :=
        if r.rFork < 1 / 100 ∧ q.tag = ParticleType.BRANCH then
          kids1 ++ [mkParticle pos1.x pos1.y q.col rsiz dir1 q1.life q.lifespan
            ParticleType.BRANCH r.crFork]
        else kids1
      let twigChance :=
        if q.tag = ParticleType.BRANCH ∧ siz1 < 1 / 4 then
          mapR siz1 0 (1 / 4) (1 / 2) (3 / 10)
        else 0
      let kids3 :=
        if r.rTwig < twigChance then
          kids2 ++ [mkParticle pos1.x pos1.y q.col (r.sqrtSiz * rsiz)
            (dir1 + randNeg r.twigPos r.twigMag) 0 r.twigLife
            ParticleType.TWIG r.crTwig]
        else kids2
      ⟨q1, false, kids3, tp1⟩

/-- `spawnFlower` of `GenerativeTree.tsx` (lines 355–360): the flower size is
`p.map(handScreenSizeRatio, 0.05, 0.3, 10, 35, true)` (clamped). -/
def spawnFlower (x y ratio : ℚ) (cr : CtorRand) (col : ℕ) : Particle :=
  mkParticle x y col (mapClamped ratio (1 / 20) (3 / 10) 10 35) 0 0 0
    ParticleType.FLOWER cr

/-- Oracle draws consumed by one `spawnFlower` call: the palette pick and
the constructor draws. -/
structure SpawnRand where
  col : ℕ
  cr : CtorRand

/-- Per-detection inputs to `handleHandInteraction`, derived from the
MediaPipe landmarks: the mirrored index-tip screen coordinates `(x, y)`,
the wrist screen coordinates, the four wrist-to-fingertip distances in
landmark space, `handScreenSizeRatio`, the index-tip travel distance `vel`
(`p.dist(currentTipPos, prevIndexPos)`, read only when a previous position
exists), the `atan2` finger angle, `p.millis()`, and the oracle stream for
flower spawns. -/
structure HandData where
  x : ℚ
  y : ℚ
  wx : ℚ
  wy : ℚ
  dIndex : ℚ
  dMiddle : ℚ
  dRing : ℚ
  dPinky : ℚ
  handRatio : ℚ
  vel : ℚ
  fingerAngle : ℚ
  millis : ℚ
  spawnR : ℕ → SpawnRand

/-- The sketch-closure state mutated by `p.draw`/`handleHandInteraction`:
`parts`, `treePositions`, `prevIndexPos`, `fingerStillFrames`, `wandPos`. -/
structure SketchState where
  parts : List Particle
  treePositions : List Point
  prevIndexPos : Option Point
  fingerStillFrames : ℕ
  wandPos : Option Point

/-- The velocity used by `handleHandInteraction`: `0` when there is no
previous index position, otherwise the measured travel distance. -/
def velocityOf (hd : HandData) (st : SketchState) : ℚ :=
  match st.prevIndexPos with
  | none => 0
  | some _ => hd.vel

/-- The pointing heuristic (line 512): the index tip is farther from the
wrist than 1.1 times each of the middle, ring and pinky tips. -/
def isPointingOf (hd : HandData) : Prop :=
  hd.dIndex > hd.dMiddle * (11 / 10) ∧ hd.dIndex > hd.dRing * (11 / 10) ∧
    hd.dIndex > hd.dPinky * (11 / 10)

instance (hd : HandData) : Decidable (isPointingOf hd) := by
  unfold isPointingOf
  infer_instance

/-- The updated `fingerStillFrames` counter: incremented when
`velocity < 3`, reset to 0 otherwise (lines 515–521). -/
def fsfNext (hd : HandData) (st : SketchState) : ℕ :=
  if velocityOf hd st < 3 then st.fingerStillFrames + 1 else 0

/-- Guard of the magnify branch (line 525):
`isPointing && fingerStillFrames > 10`. -/
def magnifyCond (hd : HandData) (st : SketchState) : Prop :=
  isPointingOf hd ∧ fsfNext hd st > 10

instance (hd : HandData) (st : SketchState) : Decidable (magnifyCond hd st) := by
  unfold magnifyCond
  infer_instance

/-- Closest-flower scan (lines 527–543), on squared distances: threads the
running best squared distance (starting at `50 ^ 2 = 2500`) and the index of
the current best flower. -/
def closestFlowerAux (x y : ℚ) :
    List Particle → ℕ → ℚ → Option ℕ → ℚ × Option ℕ
  | [], _, best, idx => (best, idx)
  | q :: qs, j, best, idx =>
    if q.tag = ParticleType.FLOWER ∧ distSq x y q.pos.x q.pos.y < best then
      closestFlowerAux x y qs (j + 1) (distSq x y q.pos.x q.pos.y) (some j)
    else
      closestFlowerAux x y qs (j + 1) best idx

/-- Index of the closest flower strictly within 50 px of `(x, y)`. -/
def closestFlowerIdx (x y : ℚ) (parts : List Particle) : Option ℕ :=
  (closestFlowerAux x y parts 0 2500 none).2

/-- The magnify-branch mutation of the chosen flower (lines 545–548). -/
def hoverUpd (millis ang : ℚ) (q : Particle) : Particle :=
  { q with lastHoveredTime := millis, interactionRotation := ang }

/-- Replace the element at an index by its image under `f` (the in-place
mutation of `closestFlower` through the list). -/
def setModify (f : Particle → Particle) : ℕ → List Particle → List Particle
  | _, [] => []
  | 0, q :: qs => f q :: qs
  | Nat.succ n, q :: qs => q :: setModify f n qs

/-- One probe of the paint branch (lines 559–567): scan `treePositions`
from the last index down; the first entry with `dist < 30` (squared: `< 900`)
is removed and returned (`break` after the splice).  The scan runs over the
reversed list. -/
def probeOneAux (lx ly : ℚ) : List Point → Option Point × List Point
  | [] => (none, [])
  | q :: qs =>
    if distSq lx ly q.x q.y < 900 then (some q, qs)
    else
      let r := probeOneAux lx ly qs
      (r.1, q :: r.2)

/-- One probe over `treePositions` in source order. -/
def probeOne (lx ly : ℚ) (tp : List Point) : Option Point × List Point :=
  let r := probeOneAux lx ly tp.reverse
  (r.1, r.2.reverse)

/-- `steps = Math.ceil(velocity / 10)` (line 553). -/
def stepsOf (v : ℚ) : ℕ := (Int.ceil (v / 10)).toNat

/-- The interpolation loop of the paint branch (lines 554–568): probes at
`s / steps` for each `s` in the given list, threading `treePositions` and
the spawn-oracle index, collecting the spawned flowers in push order. -/
def probeSeq (pv cur : Point) (steps : ℕ) (ratio : ℚ) (sr : ℕ → SpawnRand) :
    List ℕ → List Point → ℕ → List Particle × List Point × ℕ
  | [], tp, k => ([], tp, k)
  | s :: ss, tp, k =>
    let t : ℚ := (s : ℚ) / (steps : ℚ)
    let pr := probeOne (lerp pv.x cur.x t) (lerp pv.y cur.y t) tp
    match pr.1 with
    | some q =>
      let f := spawnFlower q.x q.y ratio (sr k).cr (sr k).col
      let rest := probeSeq pv cur steps ratio sr ss pr.2 (k + 1)
      (f :: rest.1, rest.2.1, rest.2.2)
    | none =>
      -- no entry in range: nothing is spliced, `treePositions` is unchanged
      probeSeq pv cur steps ratio sr ss tp k

/-- `handleHandInteraction` of `GenerativeTree.tsx` (lines 468–578).
`none` models a result with no landmarks.  When `steps = 0` the single loop
iteration evaluates `s / steps = 0 / 0 = NaN` in JavaScript, every
`NaN < 30` comparison is false, and nothing is spawned; that iteration is
embedded as a no-op. -/
def handleHandInteraction (h : Option HandData) (st : SketchState) :
    SketchState :=
  match h with
  | none =>
    { st with prevIndexPos := none, wandPos := none, fingerStillFrames := 0 }
  | some hd =>
    let cur : Point := ⟨hd.x, hd.y⟩
    let wand1 : Point :=
      match st.wandPos with
      | none => cur
      | some w => ⟨lerp w.x cur.x (1 / 5), lerp w.y cur.y (1 / 5)⟩
    let velocity := velocityOf hd st
    let fsf1 := fsfNext hd st
    if magnifyCond hd st then
      let parts1 :=
        match closestFlowerIdx hd.x hd.y st.parts with
        | none => st.parts
        | some i => setModify (hoverUpd hd.millis hd.fingerAngle) i st.parts
      { st with parts := parts1, fingerStillFrames := fsf1,
                wandPos := some wand1, prevIndexPos := some cur }
    else
      match st.prevIndexPos with
      | some pv =>
        if st.treePositions = [] then
          { st with fingerStillFrames := fsf1, wandPos := some wand1,
                    prevIndexPos := some cur }
        else
          let steps := stepsOf velocity
          let res :=
            if steps = 0 then (([] : List Particle), st.treePositions, 0)
            else probeSeq pv cur steps hd.handRatio hd.spawnR
              (List.range (steps + 1)) st.treePositions 0
          { st with parts := st.parts ++ res.1, treePositions := res.2.1,
                    fingerStillFrames := fsf1, wandPos := some wand1,
                    prevIndexPos := some cur }
      | none =>
        { st with fingerStillFrames := fsf1, wandPos := some wand1,
                  prevIndexPos := some cur }

/-- The particle loop of `p.draw` (lines 432–451) iterates `i` from
`parts.length - 1` down to `0`, updating `parts[i]`, splicing it out when
`update` returns `true`; children pushed during the loop land beyond `i`
and are not updated this frame.  Equivalently: process the original list
in reverse order, collecting survivors (in original order) and children
(in push order), threading `treePositions` and one `RandPack` per processed
particle. -/
def drawGoRev (env : Env) (rs : ℕ → RandPack) :
    List Particle → ℕ → List Point →
      List Particle × List Particle × List Point
  | [], _, tp => ([], [], tp)
  | q :: qs, k, tp =>
    let r := update env (rs k) tp q
    let rest := drawGoRev env rs qs (k + 1) r.tp
    (rest.1 ++ (if r.dead then [] else [r.self]), r.kids ++ rest.2.1, rest.2.2)

/-- The dead/alive flags produced by the same reverse sweep. -/
def deadFlags (env : Env) (rs : ℕ → RandPack) :
    List Particle → ℕ → List Point → List Bool
  | [], _, _ => []
  | q :: qs, k, tp =>
    let r := update env (rs k) tp q
    r.dead :: deadFlags env rs qs (k + 1) r.tp

/-- The whole particle pass of `p.draw`: resulting `parts` (survivors then
children) and resulting `treePositions`. -/
def drawLoop (env : Env) (rs : ℕ → RandPack) (parts : List Particle)
    (tp : List Point) : List Particle × List Point :=
  let r := drawGoRev env rs parts.reverse 0 tp
  (r.1 ++ r.2.1, r.2.2)

/-- One invocation of the `p.draw` callback on the sketch state:
hand interaction first (when detection ran), then the particle pass.
`none` = detection did not run this frame; `some h` = it ran and produced
hand result `h`. -/
def frame (env : Env) (rs : ℕ → RandPack) (h : Option (Option HandData))
    (st : SketchState) : SketchState :=
  let st1 :=
    match h with
    | none => st
    | some hres => handleHandInteraction hres st
  let r := drawLoop env rs st1.parts st1.treePositions
  { st1 with parts := r.1, treePositions := r.2 }

/-- Iterated updates of a single particle (the per-frame calls it receives
while it stays in `parts`); `treePositions` is irrelevant to a flower and is
passed empty. -/
def iter (es : ℕ → Env) (rs : ℕ → RandPack) (q : Particle) : ℕ → Particle
  | 0 => q
  | n + 1 => (update (es n) (rs n) [] (iter es rs q n)).self

/-- The boolean returned by the particle's `n`-th update call. -/
def deadAt (es : ℕ → Env) (rs : ℕ → RandPack) (q : Particle) (n : ℕ) : Bool :=
  (update (es n) (rs n) [] (iter es rs q n)).dead

/-- A particle never dies: no call to `update` ever returns `true`. -/
def neverDies (es : ℕ → Env) (rs : ℕ → RandPack) (q : Particle) : Prop :=
  ∀ n, deadAt es rs q n = false

end GT

namespace V0

/-- Particle state of the `src/unnamed/part_000` `Particle` class. -/
structure Particle where
  pos : Point
  col : ℕ
  siz : ℚ
  asiz : ℚ
  dir : ℚ
  spd : ℚ
  life : ℚ
  lifespan : ℚ
  tag : ParticleType
  rotationOffset : ℚ
deriving DecidableEq

/-- Constructor oracle draws: `p.random(0.25, 2)` speed and
`p.random(TWO_PI)` rotation offset. -/
structure CtorRand where
  rSpd : ℚ
  rRot : ℚ
deriving DecidableEq

/-- The `Particle` constructor of `part_000` (lines 83–102). -/
def mkParticle (sx sy : ℚ) (col : ℕ) (ss sd sl ls : ℚ) (tag : ParticleType)
    (cr : CtorRand) : Particle :=
  { pos := ⟨sx, sy⟩
    col := col
    siz := if tag = ParticleType.FLOWER then 0 else 1
    asiz := ss
    dir := sd
    spd :=
      if tag = ParticleType.FLOWER then 0
      else if tag = ParticleType.TRUNK then 2
      else cr.rSpd
    life := sl
    lifespan := ls
    tag := tag
    rotationOffset := cr.rRot }

/-- Per-frame ambient values read by the `part_000` update. -/
structure Env where
  frameCount : ℕ

/-- Oracle draws consumed by one `part_000` `Particle.update` call. -/
structure RandPack where
  c : ℚ
  s : ℚ
  wanderR : ℚ
  rCurl : ℚ
  curlPos : Bool
  taper : ℚ
  rBranch : ℚ
  branchPos : Bool
  branchMag : ℚ
  rFork : ℚ
  forkDelta : ℚ
  crBranch : CtorRand
  crFork : CtorRand

/-- Result of one `part_000` `Particle.update` call. -/
structure UpdRes where
  self : Particle
  dead : Bool
  kids : List Particle
  tp : List Point

/-- `Particle.update` of `part_000` (lines 104–171). -/
def update (env : Env) (r : RandPack) (tp : List Point) (q0 : Particle) :
    UpdRes :=
  let q := { q0 with life := q0.life + 1 }
  if q.tag = ParticleType.FLOWER then
    -- FLOWER LOGIC (lines 110–117): grow by 0.1, die once fully grown.
    let siz1 := q.siz + 1 / 10
    if siz1 ≥ 1 then ⟨{ q with siz := 1 }, true, [], tp⟩
    else ⟨{ q with siz := siz1 }, false, [], tp⟩
  else
    -- TREE LOGIC (lines 119–170).
    let pos1 : Point := ⟨q.pos.x + r.c * q.spd, q.pos.y + r.s * q.spd⟩
    let tp1 := if env.frameCount % 4 = 0 then tp ++ [pos1] else tp
    let wander :=
      if q.tag = ParticleType.TRUNK ∧ q.siz > 9 / 10 then 1
      else mapR q.life 0 q.lifespan 1 5
    let dir1 := q.dir + r.wanderR * wander
    let dir2 :=
      if r.rCurl < 1 / 200 ∧ q.tag ≠ ParticleType.TRUNK then
        dir1 + randNeg r.curlPos 1 * 36
      else dir1
    let siz1 := lerp q.siz 0 r.taper
    let currentSize := q.asiz * siz1
    let q1 := { q with pos := pos1, dir := dir2, siz := siz1 }
    if currentSize < 1 / 2 ∨ q.spd > currentSize then
      ⟨q1, true, [], tp1⟩
    else
      let kids1 : List Particle :=
        if r.rBranch < 3 / 100 ∧ q.tag = ParticleType.TRUNK ∧ siz1 < 3 / 5 then
          [mkParticle pos1.x pos1.y q.col (currentSize * (9 / 10))
            (dir2 + randNeg r.branchPos r.branchMag) q1.life q.lifespan
            ParticleType.BRANCH r.crBranch]
        else []
      let kids2 :=
        if r.rFork < 1 / 100 ∧ q.tag = ParticleType.BRANCH ∧ siz1 > 1 / 2 then
          kids1 ++ [mkParticle pos1.x pos1.y q.col currentSize
            (dir2 + r.forkDelta) q1.life q.lifespan ParticleType.BRANCH
            r.crFork]
        else kids1
      ⟨q1, false, kids2, tp1⟩

/-- `spawnFlower` of `part_000` (lines 223–228); `size` is the oracle for
`p.random(15, 25)` and `col` the palette pick. -/
def spawnFlower (x y : ℚ) (col : ℕ) (size : ℚ) (cr : CtorRand) : Particle :=
  mkParticle x y col size 0 0 0 ParticleType.FLOWER cr

/-- Oracle draws for one `part_000` `spawnFlower` call. -/
structure SpawnRand where
  col : ℕ
  size : ℚ
  cr : CtorRand

/-- Closure state touched by the `part_000` interaction handler. -/
structure HandState where
  parts : List Particle
  treePositions : List Point
  prevHandPos : Option Point

/-- Per-detection inputs of the `part_000` handler: mirrored index-tip
coordinates, travel distance `vel` (read only when a previous position
exists), the `p.random()` bloom draw, and the spawn-oracle stream. -/
structure HandData where
  x : ℚ
  y : ℚ
  vel : ℚ
  rBloom : ℚ
  spawnR : ℕ → SpawnRand

/-- The bloom loop of `part_000` (lines 299–312) over the reversed
`treePositions` (the source iterates `i` from the last index down,
splicing matches until `bloomsNeeded` is exhausted).  Distances are
compared squared (`radSq = searchRadius ^ 2`). -/
def bloomGo (x y radSq : ℚ) (sr : ℕ → SpawnRand) :
    List Point → ℕ → ℕ → List Particle × List Point × ℕ
  | [], _, k => ([], [], k)
  | q :: qs, b, k =>
    if b = 0 then ([], q :: qs, k)
    else if distSq x y q.x q.y < radSq then
      let f := spawnFlower q.x q.y (sr k).col (sr k).size (sr k).cr
      let rest := bloomGo x y radSq sr qs (b - 1) (k + 1)
      (f :: rest.1, rest.2.1, rest.2.2)
    else
      let rest := bloomGo x y radSq sr qs b k
      (rest.1, q :: rest.2.1, rest.2.2)

/-- The velocity used by the `part_000` handler: `0` when there is no
previous hand position, otherwise the measured travel distance. -/
def velocityOf (hd : HandData) (st : HandState) : ℚ :=
  match st.prevHandPos with
  | none => 0
  | some _ => hd.vel

/-- `bloomsNeeded` (lines 284–293): 5 on a high-velocity swipe, otherwise 1
with probability 0.2, else 0. -/
def bloomsOf (hd : HandData) (st : HandState) : ℕ :=
  if velocityOf hd st > 8 then 5 else if hd.rBloom < 1 / 5 then 1 else 0

/-- `searchRadius` (line 296), squared: `80 ^ 2` on a swipe, else `40 ^ 2`. -/
def radSqOf (hd : HandData) (st : HandState) : ℚ :=
  if velocityOf hd st > 8 then 6400 else 1600

/-- `handleHandInteraction` of `part_000` (lines 265–320). -/
def handleHandInteraction (h : Option HandData) (st : HandState) : HandState :=
  match h with
  | none => { st with prevHandPos := none }
  | some hd =>
    let cur : Point := ⟨hd.x, hd.y⟩
    if st.treePositions = [] then { st with prevHandPos := some cur }
    else
      if bloomsOf hd st = 0 then { st with prevHandPos := some cur }
      else
        let r := bloomGo hd.x hd.y (radSqOf hd st) hd.spawnR
          st.treePositions.reverse (bloomsOf hd st) 0
        { parts := st.parts ++ r.1, treePositions := r.2.1.reverse,
          prevHandPos := some cur }

/-- Iterated updates of a single `part_000` particle. -/
def iter (es : ℕ → Env) (rs : ℕ → RandPack) (q : Particle) : ℕ → Particle
  | 0 => q
  | n + 1 => (update (es n) (rs n) [] (iter es rs q n)).self

/-- The boolean returned by the particle's `n`-th update call. -/
def deadAt (es : ℕ → Env) (rs : ℕ → RandPack) (q : Particle) (n : ℕ) : Bool :=
  (update (es n) (rs n) [] (iter es rs q n)).dead

end V0

/-- Outcome of one `HandLandmarker.createFromOptions` attempt. -/
inductive InitOutcome
  | ok
  | fail
deriving DecidableEq

/-- The MediaPipe delegate requested by an initialization attempt. -/
inductive Delegate
  | GPU
  | CPU
deriving DecidableEq

/-- Result of `initVision`: the delegate of the landmarker that ended up in
`handLandmarkerRef` (if any) and the sequence of attempts made. -/
structure InitRes where
  result : Option Delegate
  attempts : List Delegate
deriving DecidableEq

namespace GT

/-- Control flow of `initVision` in `GenerativeTree.tsx` (lines 19–64):
try the GPU delegate; on any error, catch, log, and retry once with the CPU
delegate inside the catch; if that also fails, catch and log again. -/
def initVision (gpu cpu : InitOutcome) : InitRes :=
  match gpu with
  | InitOutcome.ok => ⟨some Delegate.GPU, [Delegate.GPU]⟩
  | InitOutcome.fail =>
    match cpu with
    | InitOutcome.ok => ⟨some Delegate.CPU, [Delegate.GPU, Delegate.CPU]⟩
    | InitOutcome.fail => ⟨none, [Delegate.GPU, Delegate.CPU]⟩

end GT

namespace V0

/-- Control flow of `initVision` in `part_000` (lines 19–47): a single GPU
attempt inside a try/catch; the catch only logs. -/
def initVision (gpu : InitOutcome) : InitRes :=
  match gpu with
  | InitOutcome.ok => ⟨some Delegate.GPU, [Delegate.GPU]⟩
  | InitOutcome.fail => ⟨none, [Delegate.GPU]⟩

end V0

section Helpers

namespace GT

theorem update_flower (env : Env) (r : RandPack) (tp : List Point)
    (q : Particle) (h : q.tag = ParticleType.FLOWER) :
    (update env r tp q).dead = false ∧
    (update env r tp q).self.tag = ParticleType.FLOWER ∧
    (update env r tp q).self.pos = q.pos ∧
    (update env r tp q).kids = [] ∧
    (update env r tp q).tp = tp ∧
    (q.siz ≤ 1 → (update env r tp q).self.siz ≤ 1) := by
  simp only [update, h]
  split_ifs <;> simp_all

theorem update_tree_siz (env : Env) (r : RandPack) (tp : List Point)
    (q : Particle) (h : q.tag ≠ ParticleType.FLOWER) :
    (update env r tp q).self.siz = lerp q.siz 0 r.taper := by
  simp only [update, h]
  split_ifs <;> simp_all

theorem update_tree_dead (env : Env) (r : RandPack) (tp : List Point)
    (q : Particle) (h : q.tag ≠ ParticleType.FLOWER) :
    (update env r tp q).dead =
      decide (q.asiz * q.siz < 1 / 10 ∨ q.spd > q.asiz * q.siz) := by
  simp only [update, h]
  split_ifs <;> simp_all

theorem update_tp_shape (env : Env) (r : RandPack) (tp : List Point)
    (q : Particle) :
    (update env r tp q).tp = tp ∨
      ((update env r tp q).tp = tp ++ [(update env r tp q).self.pos] ∧
        q.tag ≠ ParticleType.FLOWER) := by
  by_cases h : q.tag = ParticleType.FLOWER <;> simp only [update, h] <;>
    split_ifs <;> first
      | exact Or.inl rfl
      | exact Or.inr ⟨rfl, h⟩

theorem iter_flower (es : ℕ → Env) (rs : ℕ → RandPack) (q : Particle)
    (h : q.tag = ParticleType.FLOWER) (hs : q.siz ≤ 1) (n : ℕ) :
    (iter es rs q n).tag = ParticleType.FLOWER ∧
    (iter es rs q n).pos = q.pos ∧ (iter es rs q n).siz ≤ 1 := by
  induction n with
  | zero => exact ⟨h, rfl, hs⟩
  | succ n ih =>
    obtain ⟨htag, hpos, hsiz⟩ := ih
    have h' := update_flower (es n) (rs n) [] (iter es rs q n) htag
    exact ⟨h'.2.1, h'.2.2.1.trans hpos, h'.2.2.2.2.2 hsiz⟩

end GT

namespace V0

theorem update_flower_v0 (env : Env) (r : RandPack) (tp : List Point)
    (q : Particle) (h : q.tag = ParticleType.FLOWER) :
    (update env r tp q).dead = decide (q.siz + 1 / 10 ≥ 1) ∧
    (update env r tp q).self.tag = ParticleType.FLOWER ∧
    (update env r tp q).self.pos = q.pos ∧
    (update env r tp q).kids = [] ∧
    (update env r tp q).tp = tp ∧
    (update env r tp q).self.siz ≤ 1 ∧
    (q.siz + 1 / 10 < 1 → (update env r tp q).self.siz = q.siz + 1 / 10) := by
  simp only [update, h]
  split_ifs <;> simp_all <;> linarith

theorem update_tree_siz_v0 (env : Env) (r : RandPack) (tp : List Point)
    (q : Particle) (h : q.tag ≠ ParticleType.FLOWER) :
    (update env r tp q).self.siz = lerp q.siz 0 r.taper := by
  simp only [update, h]
  split_ifs <;> simp_all

theorem iter_flower_v0 (es : ℕ → Env) (rs : ℕ → RandPack) (q : Particle)
    (h : q.tag = ParticleType.FLOWER) (n : ℕ)
    (hn : q.siz + (n : ℚ) / 10 < 1) :
    (iter es rs q n).tag = ParticleType.FLOWER ∧
    (iter es rs q n).siz = q.siz + (n : ℚ) / 10 := by
  induction n with
  | zero => simpa using ⟨h, rfl⟩
  | succ n ih =>
    have hn' : q.siz + (n : ℚ) / 10 < 1 := by
      push_cast at hn ⊢
      linarith
    obtain ⟨htag, hsiz⟩ := ih hn'
    have h' := update_flower_v0 (es n) (rs n) [] (iter es rs q n) htag
    refine ⟨h'.2.1, ?_⟩
    calc (iter es rs q (n + 1)).siz
        = (update (es n) (rs n) [] (iter es rs q n)).self.siz := rfl
      _ = (iter es rs q n).siz + 1 / 10 :=
          h'.2.2.2.2.2.2 (by rw [hsiz]; push_cast at hn ⊢; linarith)
      _ = q.siz + ((n : ℚ) + 1) / 10 := by rw [hsiz]; ring
      _ = q.siz + ((n + 1 : ℕ) : ℚ) / 10 := by push_cast; ring

theorem iter_flower_pos_v0 (es : ℕ → Env) (rs : ℕ → RandPack) (q : Particle)
    (h : q.tag = ParticleType.FLOWER) (n : ℕ) :
    (iter es rs q n).tag = ParticleType.FLOWER ∧
    (iter es rs q n).pos = q.pos ∧ (iter es rs q n).siz ≤ q.siz ⊔ 1 := by
  induction n with
  | zero => exact ⟨h, rfl, le_max_left _ _⟩
  | succ n ih =>
    obtain ⟨htag, hpos, _⟩ := ih
    have h' := update_flower_v0 (es n) (rs n) [] (iter es rs q n) htag
    exact ⟨h'.2.1, h'.2.2.1.trans hpos,
      h'.2.2.2.2.2.1.trans (le_max_right _ _)⟩

end V0

/-- `lerp s 0 t = s * (1 - t)` stays at or below `s` when both are
nonnegative. -/
theorem lerp_zero_le_self (s t : ℚ) (hs : 0 ≤ s) (ht : 0 ≤ t) :
    lerp s 0 t ≤ s := by
  unfold lerp
  nlinarith

end Helpers

/-- C2: for every particle tagged TRUNK, BRANCH or TWIG, one call to
`update` (in either variant) reassigns `siz` to `lerp(siz, 0, r)` with
`r = p.random(0.015) ∈ [0, 0.015)`, so `siz` never increases and the
rendered size `asiz * siz` never increases either. -/
theorem blossom_C2 (env : GT.Env) (r : GT.RandPack) (tp : List Point)
    (q : GT.Particle) (env' : V0.Env) (r' : V0.RandPack) (tp' : List Point)
    (q' : V0.Particle)
    (hq : q.tag ≠ ParticleType.FLOWER) (hq' : q'.tag ≠ ParticleType.FLOWER)
    (hs : 0 ≤ q.siz) (hs' : 0 ≤ q'.siz)
    (ha : 0 ≤ q.asiz) (ha' : 0 ≤ q'.asiz)
    (ht0 : 0 ≤ r.taper) (ht1 : r.taper < 3 / 200)
    (ht0' : 0 ≤ r'.taper) (ht1' : r'.taper < 3 / 200) :
    ((GT.update env r tp q).self.siz = lerp q.siz 0 r.taper ∧
      (GT.update env r tp q).self.siz ≤ q.siz ∧
      q.asiz * (GT.update env r tp q).self.siz ≤ q.asiz * q.siz) ∧
    ((V0.update env' r' tp' q').self.siz = lerp q'.siz 0 r'.taper ∧
      (V0.update env' r' tp' q').self.siz ≤ q'.siz ∧
      q'.asiz * (V0.update env' r' tp' q').self.siz ≤ q'.asiz * q'.siz) := by
  have e1 := GT.update_tree_siz env r tp q hq
  have e2 := V0.update_tree_siz_v0 env' r' tp' q' hq'
  have l1 : lerp q.siz 0 r.taper ≤ q.siz := lerp_zero_le_self _ _ hs ht0
  have l2 : lerp q'.siz 0 r'.taper ≤ q'.siz := lerp_zero_le_self _ _ hs' ht0'
  refine ⟨⟨e1, ?_, ?_⟩, e2, ?_, ?_⟩
  · rw [e1]
    exact l1
  · rw [e1]
    exact mul_le_mul_of_nonneg_left l1 ha
  · rw [e2]
    exact l2
  · rw [e2]
    exact mul_le_mul_of_nonneg_left l2 ha'

/-- A concrete trunk particle of `GenerativeTree.tsx` (`startTree` spawns
trunks with `asiz = 100`, angle 260, lifespan 500). -/
def wTrunk : GT.Particle :=
  GT.mkParticle 400 650 0 100 260 0 500 ParticleType.TRUNK ⟨0, 1, 0⟩

/-- A concrete per-frame environment. -/
def wEnv : GT.Env := ⟨5, 800, 1000, 0⟩

/-- A concrete oracle pack with `taper = 0.01 ∈ [0, 0.015)` and no spawns. -/
def wRand : GT.RandPack :=
  ⟨0, 1 / 100, 0, 0, 1, true, 20, 1, 1, true, 10, 5, 0, 0, ⟨0, 1, 0⟩,
    ⟨0, 1, 0⟩, ⟨0, 1, 0⟩⟩

/-- A concrete trunk particle of `part_000` (`startTree` spawns trunks with
`asiz = 50`, angle 270, lifespan 500). -/
def wTrunkV : V0.Particle :=
  V0.mkParticle 380 820 0 50 270 0 500 ParticleType.TRUNK ⟨1, 0⟩

/-- A concrete `part_000` oracle pack with `taper = 0.01`. -/
def wRandV : V0.RandPack :=
  ⟨0, 0, 0, 1, true, 1 / 100, 1, true, 30, 1, 0, ⟨1, 0⟩, ⟨1, 0⟩⟩

/-- Witness for C2 at a concrete trunk in each variant. -/
theorem blossom_C2_witness :
    ((GT.update wEnv wRand [] wTrunk).self.siz = lerp wTrunk.siz 0 wRand.taper ∧
      (GT.update wEnv wRand [] wTrunk).self.siz ≤ wTrunk.siz ∧
      wTrunk.asiz * (GT.update wEnv wRand [] wTrunk).self.siz ≤
        wTrunk.asiz * wTrunk.siz) ∧
    ((V0.update ⟨5⟩ wRandV [] wTrunkV).self.siz = lerp wTrunkV.siz 0 wRandV.taper ∧
      (V0.update ⟨5⟩ wRandV [] wTrunkV).self.siz ≤ wTrunkV.siz ∧
      wTrunkV.asiz * (V0.update ⟨5⟩ wRandV [] wTrunkV).self.siz ≤
        wTrunkV.asiz * wTrunkV.siz) :=
  blossom_C2 wEnv wRand [] wTrunk ⟨5⟩ wRandV [] wTrunkV
    (by decide) (by decide) (by decide) (by decide) (by decide) (by decide)
    (by norm_num [wRand]) (by norm_num [wRand]) (by norm_num [wRandV])
    (by norm_num [wRandV])

/-- C8: `spawnFlower` builds its FLOWER particle with
`asiz = p.map(handScreenSizeRatio, 0.05, 0.3, 10, 35, true)`, so the size is
clamped into `[10, 35]` for every input ratio. -/
theorem blossom_C8 (x y ratio : ℚ) (cr : GT.CtorRand) (col : ℕ) :
    10 ≤ (GT.spawnFlower x y ratio cr col).asiz ∧
      (GT.spawnFlower x y ratio cr col).asiz ≤ 35 := by
  have h : (GT.spawnFlower x y ratio cr col).asiz =
      mapClamped ratio (1 / 20) (3 / 10) 10 35 := rfl
  rw [h]
  unfold mapClamped constrain
  constructor
  · exact le_max_right _ _
  · exact max_le ((min_le_right _ _).trans (by norm_num)) (by norm_num)

/-- C9: a spawned flower is stationary and bounded — after any number of
update calls (in either variant) its position is still the spawn position
and its `siz` never exceeds 1. -/
theorem blossom_C9 :
    (∀ (x y ratio : ℚ) (cr : GT.CtorRand) (col : ℕ) (es : ℕ → GT.Env)
        (rs : ℕ → GT.RandPack) (n : ℕ),
      (GT.iter es rs (GT.spawnFlower x y ratio cr col) n).pos =
          (⟨x, y⟩ : Point) ∧
        (GT.iter es rs (GT.spawnFlower x y ratio cr col) n).siz ≤ 1) ∧
    (∀ (x y : ℚ) (col : ℕ) (size : ℚ) (cr : V0.CtorRand) (es : ℕ → V0.Env)
        (rs : ℕ → V0.RandPack) (n : ℕ),
      (V0.iter es rs (V0.spawnFlower x y col size cr) n).pos =
          (⟨x, y⟩ : Point) ∧
        (V0.iter es rs (V0.spawnFlower x y col size cr) n).siz ≤ 1) := by
  constructor
  · intro x y ratio cr col es rs n
    have h := GT.iter_flower es rs (GT.spawnFlower x y ratio cr col) rfl
      (by norm_num [GT.spawnFlower, GT.mkParticle]) n
    exact ⟨h.2.1, h.2.2⟩
  · intro x y col size cr es rs n
    have h := V0.iter_flower_pos_v0 es rs (V0.spawnFlower x y col size cr) rfl n
    refine ⟨h.2.1, h.2.2.trans ?_⟩
    have hz : (V0.spawnFlower x y col size cr).siz = 0 := rfl
    rw [hz]
    norm_num

/-- C1 counterexample: in `GenerativeTree.tsx` a FLOWER particle's `update`
returns `false` on every call (line 198, "Flowers don't die"), so this
concrete spawned flower never dies and is never spliced out of `parts` —
refuting "every particle ever pushed onto the parts list eventually dies
... for every particle type (... and FLOWER)". -/
theorem blossom_C1_counterexample :
    GT.neverDies (fun _ => wEnv) (fun _ => wRand)
      (GT.spawnFlower 100 200 (1 / 10) ⟨0, 1, 0⟩ 0) := by
  intro n
  have h := GT.iter_flower (fun _ => wEnv) (fun _ => wRand)
    (GT.spawnFlower 100 200 (1 / 10) ⟨0, 1, 0⟩ 0) rfl
    (by norm_num [GT.spawnFlower, GT.mkParticle]) n
  exact (GT.update_flower wEnv wRand [] _ h.1).1

/-- C1 amended: tree particles (TRUNK, BRANCH, TWIG) die exactly when their
death condition `rsiz < 0.1 || spd > rsiz` holds, the `p.draw` loop keeps
exactly the particles whose `update` returned `false` (splicing out the
dead ones), and flowers die only in the `part_000` variant — there a
spawned flower's 10th update call returns `true` (its `siz` reaches 1) —
while in `GenerativeTree.tsx` a flower's `update` always returns `false`,
so flowers are never spliced. -/
theorem blossom_C1_amended :
    (∀ (env : GT.Env) (r : GT.RandPack) (tp : List Point) (q : GT.Particle),
      q.tag ≠ ParticleType.FLOWER →
        (GT.update env r tp q).dead =
          decide (q.asiz * q.siz < 1 / 10 ∨ q.spd > q.asiz * q.siz)) ∧
    (∀ (env : GT.Env) (rs : ℕ → GT.RandPack) (l : List GT.Particle) (k : ℕ)
        (tp : List Point),
      ((GT.drawGoRev env rs l k tp).1).length =
        (GT.deadFlags env rs l k tp).count false) ∧
    (∀ (x y : ℚ) (col : ℕ) (size : ℚ) (cr : V0.CtorRand) (es : ℕ → V0.Env)
        (rs : ℕ → V0.RandPack),
      V0.deadAt es rs (V0.spawnFlower x y col size cr) 9 = true) ∧
    (∀ (env : GT.Env) (r : GT.RandPack) (tp : List Point) (q : GT.Particle),
      q.tag = ParticleType.FLOWER → (GT.update env r tp q).dead = false) := by
  refine ⟨fun env r tp q h => GT.update_tree_dead env r tp q h, ?_, ?_,
    fun env r tp q h => (GT.update_flower env r tp q h).1⟩
  · intro env rs l
    induction l with
    | nil => intro k tp; rfl
    | cons q qs ih =>
      intro k tp
      simp only [GT.drawGoRev, GT.deadFlags, List.length_append,
        List.count_cons, ih]
      cases (GT.update env (rs k) tp q).dead <;> simp
  · intro x y col size cr es rs
    have h9 := V0.iter_flower_v0 es rs (V0.spawnFlower x y col size cr) rfl 9
      (by norm_num [V0.spawnFlower, V0.mkParticle])
    have h := V0.update_flower_v0 (es 9) (rs 9) []
      (V0.iter es rs (V0.spawnFlower x y col size cr) 9) h9.1
    have : V0.deadAt es rs (V0.spawnFlower x y col size cr) 9 =
        decide ((V0.iter es rs (V0.spawnFlower x y col size cr) 9).siz +
          1 / 10 ≥ 1) := h.1
    rw [this, h9.2]
    norm_num [V0.spawnFlower, V0.mkParticle]

/-- Witness for C1's amended theorem: the death-condition clause at a
concrete trunk (not dead: `rsiz = 100`, `spd = 2`), and the flower clause at
a concrete flower. -/
theorem blossom_C1_amended_witness :
    ((GT.update wEnv wRand [] wTrunk).dead =
      decide (wTrunk.asiz * wTrunk.siz < 1 / 10 ∨
        wTrunk.spd > wTrunk.asiz * wTrunk.siz)) ∧
    (GT.update wEnv wRand []
      (GT.spawnFlower 100 200 (1 / 10) ⟨0, 1, 0⟩ 0)).dead = false :=
  ⟨blossom_C1_amended.1 wEnv wRand [] wTrunk (by decide),
    blossom_C1_amended.2.2.2 wEnv wRand [] _ rfl⟩

/-- C6 counterexample: in `GenerativeTree.tsx`, when the first (GPU)
initialization attempt fails, the catch block does not merely log — it
attempts a second, CPU-delegate initialization, which can succeed; so
"no retry or alternative initialization path is attempted afterwards" is
false on this code. -/
theorem blossom_C6_counterexample :
    (GT.initVision InitOutcome.fail InitOutcome.ok).attempts =
        [Delegate.GPU, Delegate.CPU] ∧
      (GT.initVision InitOutcome.fail InitOutcome.ok).result =
        some Delegate.CPU := ⟨rfl, rfl⟩

/-- C6 amended: on failure, the error is caught and logged; in
`GenerativeTree.tsx` the catch block attempts exactly one CPU-delegate
fallback (and nothing further if that also fails), while in `part_000` the
catch only logs and no second attempt is ever made. -/
theorem blossom_C6_amended :
    (∀ g c : InitOutcome,
      (GT.initVision g c).attempts =
        (match g with
          | InitOutcome.ok => [Delegate.GPU]
          | InitOutcome.fail => [Delegate.GPU, Delegate.CPU])) ∧
    (GT.initVision InitOutcome.fail InitOutcome.fail).result = none ∧
    (∀ g : InitOutcome, (V0.initVision g).attempts = [Delegate.GPU]) := by
  refine ⟨fun g c => ?_, rfl, fun g => ?_⟩
  · cases g <;> cases c <;> rfl
  · cases g <;> rfl

section SpawnHelpers

namespace GT

theorem probeOneAux_spec (lx ly : ℚ) (l : List Point) :
    ((probeOneAux lx ly l).1 = none ∧ (probeOneAux lx ly l).2 = l) ∨
      (∃ q, (probeOneAux lx ly l).1 = some q ∧
        (q ::ₘ ((probeOneAux lx ly l).2 : Multiset Point)) =
          (l : Multiset Point)) := by
  induction l with
  | nil => exact Or.inl ⟨rfl, rfl⟩
  | cons q qs ih =>
    by_cases h : distSq lx ly q.x q.y < 900
    · exact Or.inr ⟨q, by simp [probeOneAux, h]⟩
    · rcases ih with ⟨h1, h2⟩ | ⟨p, h1, h2⟩
      · refine Or.inl ⟨?_, ?_⟩ <;> simp [probeOneAux, h, h1, h2]
      · refine Or.inr ⟨p, ?_, ?_⟩
        · simp [probeOneAux, h, h1]
        · simp only [probeOneAux, if_neg h]
          rw [← Multiset.cons_coe, ← Multiset.cons_coe,
            Multiset.cons_swap, h2]

theorem probeOne_spec (lx ly : ℚ) (tp : List Point) :
    ((probeOne lx ly tp).1 = none ∧ (probeOne lx ly tp).2 = tp) ∨
      (∃ q, (probeOne lx ly tp).1 = some q ∧
        (q ::ₘ ((probeOne lx ly tp).2 : Multiset Point)) =
          (tp : Multiset Point)) := by
  rcases probeOneAux_spec lx ly tp.reverse with ⟨h1, h2⟩ | ⟨q, h1, h2⟩
  · refine Or.inl ⟨?_, ?_⟩
    · simp [probeOne, h1]
    · simp [probeOne, h2]
  · refine Or.inr ⟨q, ?_, ?_⟩
    · simp [probeOne, h1]
    · have : ((probeOne lx ly tp).2 : Multiset Point) =
          ((probeOneAux lx ly tp.reverse).2 : Multiset Point) := by
        simp [probeOne, Multiset.coe_reverse]
      rw [this, h2, Multiset.coe_reverse]

theorem probeSeq_conserve (pv cur : Point) (steps : ℕ) (ratio : ℚ)
    (sr : ℕ → SpawnRand) (ss : List ℕ) :
    ∀ (tp : List Point) (k : ℕ),
      (((probeSeq pv cur steps ratio sr ss tp k).1.map Particle.pos :
          List Point) : Multiset Point) +
        ((probeSeq pv cur steps ratio sr ss tp k).2.1 : Multiset Point) =
        (tp : Multiset Point) := by
  induction ss with
  | nil => intro tp k; simp [probeSeq]
  | cons s ss ih =>
    intro tp k
    rcases probeOne_spec (lerp pv.x cur.x ((s : ℚ) / (steps : ℚ)))
        (lerp pv.y cur.y ((s : ℚ) / (steps : ℚ))) tp with
      ⟨h1, _⟩ | ⟨q, h1, h2⟩
    · simp only [probeSeq, h1]
      exact ih tp k
    · simp only [probeSeq, h1, List.map_cons]
      have hpos : (spawnFlower q.x q.y ratio (sr k).cr (sr k).col).pos = q :=
        rfl
      rw [hpos, ← Multiset.cons_coe, Multiset.cons_add, ih _ (k + 1), h2]

theorem probeSeq_mem (pv cur : Point) (steps : ℕ) (ratio : ℚ)
    (sr : ℕ → SpawnRand) (ss : List ℕ) :
    ∀ (tp : List Point) (k : ℕ) (f : Particle),
      f ∈ (probeSeq pv cur steps ratio sr ss tp k).1 →
        f.tag = ParticleType.FLOWER ∧ f.pos ∈ tp := by
  induction ss with
  | nil => intro tp k f hf; simp [probeSeq] at hf
  | cons s ss ih =>
    intro tp k f hf
    rcases probeOne_spec (lerp pv.x cur.x ((s : ℚ) / (steps : ℚ)))
        (lerp pv.y cur.y ((s : ℚ) / (steps : ℚ))) tp with
      ⟨h1, _⟩ | ⟨q, h1, h2⟩
    · simp only [probeSeq, h1] at hf
      exact ih tp k f hf
    · simp only [probeSeq, h1] at hf
      have hqtp : q ∈ tp := by
        have : q ∈ (tp : Multiset Point) := by
          rw [← h2]
          exact Multiset.mem_cons_self _ _
        simpa using this
      have hsub : ∀ x : Point,
          x ∈ ((probeOne (lerp pv.x cur.x ((s : ℚ) / (steps : ℚ)))
            (lerp pv.y cur.y ((s : ℚ) / (steps : ℚ))) tp).2 : List Point) →
            x ∈ tp := by
        intro x hx
        have : x ∈ (tp : Multiset Point) := by
          rw [← h2]
          exact Multiset.mem_cons_of_mem (by simpa using hx)
        simpa using this
      rcases List.mem_cons.mp hf with hfe | hfm
      · subst hfe
        exact ⟨rfl, hqtp⟩
      · obtain ⟨ht, hp⟩ := ih _ (k + 1) f hfm
        exact ⟨ht, hsub _ hp⟩

theorem setModify_length (f : Particle → Particle) :
    ∀ (i : ℕ) (l : List Particle), (setModify f i l).length = l.length := by
  intro i l
  induction l generalizing i with
  | nil => cases i <;> rfl
  | cons q qs ih =>
    cases i with
    | zero => rfl
    | succ n => simpa [setModify] using ih n

theorem setModify_get_ne (f : Particle → Particle) :
    ∀ (i : ℕ) (l : List Particle) (j : ℕ), j ≠ i →
      (setModify f i l).get? j = l.get? j := by
  intro i l
  induction l generalizing i with
  | nil => intro j _; cases i <;> rfl
  | cons q qs ih =>
    intro j hj
    cases i with
    | zero =>
      cases j with
      | zero => exact absurd rfl hj
      | succ m => rfl
    | succ n =>
      cases j with
      | zero => rfl
      | succ m => simpa [setModify] using ih n m (fun h => hj (by rw [h]))

theorem setModify_get_eq (f : Particle → Particle) :
    ∀ (i : ℕ) (l : List Particle),
      (setModify f i l).get? i = (l.get? i).map f := by
  intro i l
  induction l generalizing i with
  | nil => cases i <;> rfl
  | cons q qs ih =>
    cases i with
    | zero => rfl
    | succ n => simpa [setModify] using ih n

end GT

namespace V0

theorem bloomGo_conserve (x y radSq : ℚ) (sr : ℕ → SpawnRand)
    (l : List Point) :
    ∀ (b k : ℕ),
      (((bloomGo x y radSq sr l b k).1.map Particle.pos : List Point) :
          Multiset Point) +
        ((bloomGo x y radSq sr l b k).2.1 : Multiset Point) =
        (l : Multiset Point) := by
  induction l with
  | nil => intro b k; simp [bloomGo]
  | cons q qs ih =>
    intro b k
    by_cases hb : b = 0
    · simp [bloomGo, hb]
    · by_cases hd : distSq x y q.x q.y < radSq
      · simp only [bloomGo, if_neg hb, if_pos hd, List.map_cons]
        have hpos : (spawnFlower q.x q.y (sr k).col (sr k).size (sr k).cr).pos
            = q := rfl
        rw [hpos, ← Multiset.cons_coe, ← Multiset.cons_coe,
          Multiset.cons_add, ih (b - 1) (k + 1)]
      · simp only [bloomGo, if_neg hb, if_neg hd]
        rw [← Multiset.cons_coe, ← Multiset.cons_coe, Multiset.add_cons,
          ih b k]

theorem bloomGo_mem (x y radSq : ℚ) (sr : ℕ → SpawnRand) (l : List Point) :
    ∀ (b k : ℕ) (f : Particle), f ∈ (bloomGo x y radSq sr l b k).1 →
      f.tag = ParticleType.FLOWER ∧ f.pos ∈ l := by
  induction l with
  | nil => intro b k f hf; simp [bloomGo] at hf
  | cons q qs ih =>
    intro b k f hf
    by_cases hb : b = 0
    · simp [bloomGo, hb] at hf
    · by_cases hd : distSq x y q.x q.y < radSq
      · simp only [bloomGo, if_neg hb, if_pos hd] at hf
        rcases List.mem_cons.mp hf with hfe | hfm
        · subst hfe
          exact ⟨rfl, List.mem_cons_self _ _⟩
        · obtain ⟨ht, hp⟩ := ih (b - 1) (k + 1) f hfm
          exact ⟨ht, List.mem_cons_of_mem _ hp⟩
      · simp only [bloomGo, if_neg hb, if_neg hd] at hf
        obtain ⟨ht, hp⟩ := ih b k f hf
        exact ⟨ht, List.mem_cons_of_mem _ hp⟩

theorem bloomGo_count (x y radSq : ℚ) (sr : ℕ → SpawnRand) (l : List Point) :
    ∀ (b k : ℕ), (bloomGo x y radSq sr l b k).1.length =
      min b (l.countP (fun q => decide (distSq x y q.x q.y < radSq))) := by
  induction l with
  | nil => intro b k; simp [bloomGo]
  | cons q qs ih =>
    intro b k
    by_cases hb : b = 0
    · simp [bloomGo, hb]
    · by_cases hd : distSq x y q.x q.y < radSq
      · obtain ⟨b', rfl⟩ := Nat.exists_eq_succ_of_ne_zero hb
        simp only [bloomGo, if_neg hb, if_pos hd, List.length_cons,
          List.countP_cons, Nat.succ_sub_one]
        rw [ih b' (k + 1)]
        simp [hd, Nat.succ_min_succ]
      · simp only [bloomGo, if_neg hb, if_neg hd, List.countP_cons]
        rw [ih b k]
        simp [hd]

end V0

theorem GT.handle_spawns_gt (h : Option GT.HandData) (st : GT.SketchState) :
    ((((GT.handleHandInteraction h st).parts.drop st.parts.length).map
        GT.Particle.pos : List Point) : Multiset Point) +
      ((GT.handleHandInteraction h st).treePositions : Multiset Point) =
      (st.treePositions : Multiset Point) ∧
    ∀ f ∈ (GT.handleHandInteraction h st).parts.drop st.parts.length,
      f.tag = ParticleType.FLOWER ∧ f.pos ∈ st.treePositions := by
  cases h with
  | none => simp [GT.handleHandInteraction, List.drop_length]
  | some hd =>
    by_cases hm : GT.magnifyCond hd st
    · simp only [GT.handleHandInteraction, if_pos hm]
      cases hc : GT.closestFlowerIdx hd.x hd.y st.parts with
      | none => simp [List.drop_length]
      | some i =>
        have hdrop : (GT.setModify (GT.hoverUpd hd.millis hd.fingerAngle) i
            st.parts).drop st.parts.length = [] :=
          List.drop_eq_nil_of_le
            (le_of_eq (GT.setModify_length _ _ _))
        simp [hdrop]
    · simp only [GT.handleHandInteraction, if_neg hm]
      cases hp : st.prevIndexPos with
      | none => simp [List.drop_length]
      | some pv =>
        by_cases htp : st.treePositions = []
        · simp [htp, List.drop_length]
        · simp only [if_pos htp, if_neg htp]
          by_cases hs : GT.stepsOf (GT.velocityOf hd st) = 0
          · simp [hs, List.drop_length]
          · simp only [if_neg hs, List.drop_left]
            refine ⟨?_, ?_⟩
            · exact GT.probeSeq_conserve pv ⟨hd.x, hd.y⟩ _ hd.handRatio
                hd.spawnR _ st.treePositions 0
            · intro f hf
              exact GT.probeSeq_mem pv ⟨hd.x, hd.y⟩ _ hd.handRatio hd.spawnR
                _ st.treePositions 0 f hf

theorem V0.handle_spawns_v0 (h : Option V0.HandData) (st : V0.HandState) :
    ((((V0.handleHandInteraction h st).parts.drop st.parts.length).map
        V0.Particle.pos : List Point) : Multiset Point) +
      ((V0.handleHandInteraction h st).treePositions : Multiset Point) =
      (st.treePositions : Multiset Point) ∧
    ∀ f ∈ (V0.handleHandInteraction h st).parts.drop st.parts.length,
      f.tag = ParticleType.FLOWER ∧ f.pos ∈ st.treePositions := by
  cases h with
  | none => simp [V0.handleHandInteraction, List.drop_length]
  | some hd =>
    by_cases htp : st.treePositions = []
    · simp [V0.handleHandInteraction, htp, List.drop_length]
    · by_cases hb : V0.bloomsOf hd st = 0
      · simp [V0.handleHandInteraction, htp, hb, List.drop_length]
      · simp only [V0.handleHandInteraction, if_neg htp, if_neg hb,
          List.drop_left]
        refine ⟨?_, ?_⟩
        · have hc := V0.bloomGo_conserve hd.x hd.y (V0.radSqOf hd st)
            hd.spawnR st.treePositions.reverse (V0.bloomsOf hd st) 0
          rw [Multiset.coe_reverse] at hc
          rw [← hc]
          congr 1
          rw [Multiset.coe_reverse]
        · intro f hf
          have := V0.bloomGo_mem hd.x hd.y (V0.radSqOf hd st) hd.spawnR
            st.treePositions.reverse (V0.bloomsOf hd st) 0 f hf
          exact ⟨this.1, List.mem_reverse.mp this.2⟩

end SpawnHelpers

/-- C10: each recorded tree position blooms at most once — in both variants,
one call to `handleHandInteraction` removes from `treePositions` exactly one
entry (as a multiset element) for every flower it appends to `parts`:
the multiset of spawned flower positions plus the remaining `treePositions`
equals the incoming `treePositions`. -/
theorem blossom_C10 :
    (∀ (h : Option GT.HandData) (st : GT.SketchState),
      ((((GT.handleHandInteraction h st).parts.drop st.parts.length).map
          GT.Particle.pos : List Point) : Multiset Point) +
        ((GT.handleHandInteraction h st).treePositions : Multiset Point) =
        (st.treePositions : Multiset Point)) ∧
    (∀ (h : Option V0.HandData) (st : V0.HandState),
      ((((V0.handleHandInteraction h st).parts.drop st.parts.length).map
          V0.Particle.pos : List Point) : Multiset Point) +
        ((V0.handleHandInteraction h st).treePositions : Multiset Point) =
        (st.treePositions : Multiset Point)) :=
  ⟨fun h st => (GT.handle_spawns_gt h st).1, fun h st => (V0.handle_spawns_v0 h st).1⟩

/-- C4: flowers bloom only on the tree — every flower appended to `parts` by
`handleHandInteraction` carries coordinates taken verbatim from an entry of
the incoming `treePositions`, and `update` only ever appends the updated
tree particle's own position to `treePositions` (flowers never append), so
every flower position is a position a tree particle occupied. -/
theorem blossom_C4 :
    (∀ (h : Option GT.HandData) (st : GT.SketchState),
      ∀ f ∈ (GT.handleHandInteraction h st).parts.drop st.parts.length,
        f.tag = ParticleType.FLOWER ∧ f.pos ∈ st.treePositions) ∧
    (∀ (env : GT.Env) (r : GT.RandPack) (tp : List Point) (q : GT.Particle),
      (GT.update env r tp q).tp = tp ∨
        ((GT.update env r tp q).tp = tp ++ [(GT.update env r tp q).self.pos] ∧
          q.tag ≠ ParticleType.FLOWER)) ∧
    (∀ (h : Option V0.HandData) (st : V0.HandState),
      ∀ f ∈ (V0.handleHandInteraction h st).parts.drop st.parts.length,
        f.tag = ParticleType.FLOWER ∧ f.pos ∈ st.treePositions) :=
  ⟨fun h st => (GT.handle_spawns_gt h st).2, GT.update_tp_shape,
    fun h st => (V0.handle_spawns_v0 h st).2⟩

/-- Concrete sketch state for the C4 witness: empty `parts`, one recorded
tree position, a previous index position on that spot. -/
def stW : GT.SketchState := ⟨[], [⟨100, 100⟩], some ⟨100, 100⟩, 0, none⟩

/-- Concrete hand input for the C4 witness: a fast, non-pointing gesture
moving from `(100, 100)` to `(200, 200)` with travel distance 20. -/
def hdW : GT.HandData :=
  ⟨200, 200, 0, 0, 0, 1, 1, 1, 0, 20, 0, 0, fun _ => ⟨0, ⟨0, 1, 0⟩⟩⟩

/-- Witness for C4: the one flower this gesture spawns is tagged FLOWER and
sits exactly on the recorded tree position. -/
theorem blossom_C4_witness :
    (GT.spawnFlower 100 100 0 ⟨0, 1, 0⟩ 0).tag = ParticleType.FLOWER ∧
      (GT.spawnFlower 100 100 0 ⟨0, 1, 0⟩ 0).pos ∈ stW.treePositions :=
  blossom_C4.1 (some hdW) stW (GT.spawnFlower 100 100 0 ⟨0, 1, 0⟩ 0)
    (by norm_num [GT.handleHandInteraction, GT.magnifyCond, GT.isPointingOf,
      GT.velocityOf, GT.fsfNext, GT.stepsOf, GT.probeSeq, GT.probeOne,
      GT.probeOneAux, stW, hdW, lerp, distSq, List.range_succ])

/-- C3: a gesture above the velocity threshold spawns more flowers.  In
`part_000`, with all other inputs equal, a frame whose velocity exceeds 8
(`bloomsNeeded = 5`, `searchRadius = 80`) appends at least as many flowers
to `parts` as any frame with velocity at most 8 (`bloomsNeeded ≤ 1`,
`searchRadius = 40`).  In `GenerativeTree.tsx`, the number of interpolation
probes attempted, `steps + 1` with `steps = ceil(velocity / 10)`, is
monotone in the velocity. -/
theorem blossom_C3 :
    (∀ (st : V0.HandState) (x y rB : ℚ) (sr : ℕ → V0.SpawnRand)
        (vhi vlo : ℚ), 8 < vhi → vlo ≤ 8 →
      (V0.handleHandInteraction (some ⟨x, y, vlo, rB, sr⟩) st).parts.length -
          st.parts.length ≤
        (V0.handleHandInteraction (some ⟨x, y, vhi, rB, sr⟩) st).parts.length -
          st.parts.length) ∧
    (∀ v1 v2 : ℚ, v1 ≤ v2 → GT.stepsOf v1 + 1 ≤ GT.stepsOf v2 + 1) := by
  constructor
  · intro st x y rB sr vhi vlo hhi hlo
    cases hp : st.prevHandPos with
    | none =>
      simp only [V0.handleHandInteraction, V0.bloomsOf, V0.radSqOf,
        V0.velocityOf, hp]
      exact le_rfl
    | some pv =>
      by_cases htp : st.treePositions = []
      · simp [V0.handleHandInteraction, htp]
      · have hvhi : V0.velocityOf ⟨x, y, vhi, rB, sr⟩ st = vhi := by
          simp [V0.velocityOf, hp]
        have hvlo : V0.velocityOf ⟨x, y, vlo, rB, sr⟩ st = vlo := by
          simp [V0.velocityOf, hp]
        have hbhi : V0.bloomsOf ⟨x, y, vhi, rB, sr⟩ st = 5 := by
          simp [V0.bloomsOf, hvhi, hhi]
        have hrhi : V0.radSqOf ⟨x, y, vhi, rB, sr⟩ st = 6400 := by
          simp [V0.radSqOf, hvhi, hhi]
        have hnlo : ¬ V0.velocityOf ⟨x, y, vlo, rB, sr⟩ st > 8 := by
          rw [hvlo]; exact not_lt.mpr hlo
        have hcnt : st.treePositions.countP
              (fun q => decide (distSq x y q.x q.y < 1600)) ≤
            st.treePositions.countP
              (fun q => decide (distSq x y q.x q.y < 6400)) := by
          refine List.countP_mono_left ?_
          intro a _ ha
          simp only [decide_eq_true_eq] at ha ⊢
          linarith
        by_cases hrb : rB < 1 / 5
        · have hblo : V0.bloomsOf ⟨x, y, vlo, rB, sr⟩ st = 1 := by
            unfold V0.bloomsOf
            rw [if_neg hnlo, if_pos hrb]
          have hrlo : V0.radSqOf ⟨x, y, vlo, rB, sr⟩ st = 1600 := by
            unfold V0.radSqOf
            rw [if_neg hnlo]
          have h5 : V0.bloomsOf ⟨x, y, vhi, rB, sr⟩ st ≠ 0 := by
            rw [hbhi]; norm_num
          have h1 : V0.bloomsOf ⟨x, y, vlo, rB, sr⟩ st ≠ 0 := by
            rw [hblo]; norm_num
          simp only [V0.handleHandInteraction, if_neg htp, if_neg h5,
            if_neg h1, hblo, hbhi, hrlo, hrhi]
          norm_num [List.length_append, V0.bloomGo_count]
          omega
        · have hblo : V0.bloomsOf ⟨x, y, vlo, rB, sr⟩ st = 0 := by
            unfold V0.bloomsOf
            rw [if_neg hnlo, if_neg hrb]
          have h5 : V0.bloomsOf ⟨x, y, vhi, rB, sr⟩ st ≠ 0 := by
            rw [hbhi]; norm_num
          simp only [V0.handleHandInteraction, if_neg htp, if_neg h5,
            if_pos hblo, hbhi, hrhi]
          norm_num [List.length_append]
  · intro v1 v2 h
    have : GT.stepsOf v1 ≤ GT.stepsOf v2 := by
      unfold GT.stepsOf
      exact Int.toNat_le_toNat (Int.ceil_le_ceil
        ((div_le_div_right (by norm_num)).mpr h))
    omega

/-- Concrete `part_000` hand state for the C3 witness: one recorded tree
position at the hand. -/
def stV : V0.HandState := ⟨[], [⟨0, 0⟩], some ⟨0, 0⟩⟩

/-- Witness for C3: at velocity 9 (above the threshold) at least as many
flowers are appended as at velocity 0, here 1 versus 0
(`rBloom = 1 ≥ 0.2`, so the slow frame blooms nothing). -/
theorem blossom_C3_witness :
    (V0.handleHandInteraction
        (some ⟨0, 0, 0, 1, fun _ => ⟨0, 20, ⟨1, 0⟩⟩⟩) stV).parts.length -
      stV.parts.length ≤
    (V0.handleHandInteraction
        (some ⟨0, 0, 9, 1, fun _ => ⟨0, 20, ⟨1, 0⟩⟩⟩) stV).parts.length -
      stV.parts.length :=
  blossom_C3.1 stV 0 0 1 (fun _ => ⟨0, 20, ⟨1, 0⟩⟩) 9 0 (by norm_num)
    (by norm_num)

section ClosestFlower

namespace GT

theorem closestFlowerAux_post (x y : ℚ) :
    ∀ (l : List Particle) (j0 : ℕ) (best : ℚ) (idx0 : Option ℕ),
      (closestFlowerAux x y l j0 best idx0).1 ≤ best ∧
      (∀ q ∈ l, q.tag = ParticleType.FLOWER →
        (closestFlowerAux x y l j0 best idx0).1 ≤
          distSq x y q.pos.x q.pos.y) ∧
      (((closestFlowerAux x y l j0 best idx0).2 = idx0 ∧
          (closestFlowerAux x y l j0 best idx0).1 = best) ∨
        (∃ k q, l.get? k = some q ∧ q.tag = ParticleType.FLOWER ∧
          (closestFlowerAux x y l j0 best idx0).2 = some (j0 + k) ∧
          (closestFlowerAux x y l j0 best idx0).1 =
            distSq x y q.pos.x q.pos.y ∧
          distSq x y q.pos.x q.pos.y < best)) := by
  intro l
  induction l with
  | nil =>
    intro j0 best idx0
    exact ⟨le_rfl, by simp, Or.inl ⟨rfl, rfl⟩⟩
  | cons q qs ih =>
    intro j0 best idx0
    by_cases hc : q.tag = ParticleType.FLOWER ∧
        distSq x y q.pos.x q.pos.y < best
    · have heq : closestFlowerAux x y (q :: qs) j0 best idx0 =
          closestFlowerAux x y qs (j0 + 1) (distSq x y q.pos.x q.pos.y)
            (some j0) := by
        simp only [closestFlowerAux, if_pos hc]
      obtain ⟨ih1, ih2, ih3⟩ :=
        ih (j0 + 1) (distSq x y q.pos.x q.pos.y) (some j0)
      rw [heq]
      refine ⟨ih1.trans (le_of_lt hc.2), ?_, ?_⟩
      · intro p hp hpf
        rcases List.mem_cons.mp hp with hpe | hpm
        · subst hpe
          exact ih1
        · exact ih2 p hpm hpf
      · rcases ih3 with ⟨he, hb⟩ | ⟨k, p, hget, hpf, hidx, hval, hlt⟩
        · refine Or.inr ⟨0, q, rfl, hc.1, ?_, hb, hc.2⟩
          rw [he, Nat.add_zero]
        · refine Or.inr ⟨k + 1, p, hget, hpf, ?_, hval, hlt.trans hc.2⟩
          rw [hidx]
          congr 1
          omega
    · have heq : closestFlowerAux x y (q :: qs) j0 best idx0 =
          closestFlowerAux x y qs (j0 + 1) best idx0 := by
        simp only [closestFlowerAux, if_neg hc]
      obtain ⟨ih1, ih2, ih3⟩ := ih (j0 + 1) best idx0
      rw [heq]
      refine ⟨ih1, ?_, ?_⟩
      · intro p hp hpf
        rcases List.mem_cons.mp hp with hpe | hpm
        · subst hpe
          have hnd : ¬ distSq x y p.pos.x p.pos.y < best := fun hlt =>
            hc ⟨hpf, hlt⟩
          exact ih1.trans (not_lt.mp hnd)
        · exact ih2 p hpm hpf
      · rcases ih3 with ⟨he, hb⟩ | ⟨k, p, hget, hpf, hidx, hval, hlt⟩
        · exact Or.inl ⟨he, hb⟩
        · refine Or.inr ⟨k + 1, p, hget, hpf, ?_, hval, hlt⟩
          rw [hidx]
          congr 1
          omega

theorem closestFlowerIdx_some (x y : ℚ) (l : List Particle) (i : ℕ)
    (h : closestFlowerIdx x y l = some i) :
    ∃ q, l.get? i = some q ∧ q.tag = ParticleType.FLOWER ∧
      distSq x y q.pos.x q.pos.y < 2500 ∧
      ∀ p ∈ l, p.tag = ParticleType.FLOWER →
        distSq x y q.pos.x q.pos.y ≤ distSq x y p.pos.x p.pos.y := by
  obtain ⟨h1, h2, h3⟩ := closestFlowerAux_post x y l 0 2500 none
  rcases h3 with ⟨he, _⟩ | ⟨k, q, hget, hpf, hidx, hval, hlt⟩
  · rw [closestFlowerIdx, he] at h
    exact absurd h (by simp)
  · rw [closestFlowerIdx, hidx] at h
    have hk : k = i := by
      have := Option.some.inj h
      omega
    subst hk
    refine ⟨q, hget, hpf, hlt, ?_⟩
    intro p hp hpft
    have := h2 p hp hpft
    rw [hval] at this
    exact this

end GT

end ClosestFlower

/-- C7: the still-pointing gesture magnifies instead of painting.  When the
hand is pointing and has been still for more than 10 consecutive frames,
`handleHandInteraction` leaves `treePositions` alone, spawns nothing
(`parts` keeps its length), changes at most the one particle selected by
the closest-flower scan — a FLOWER strictly within 50 px of the index tip,
at minimal distance among all flowers, with only `lastHoveredTime` and
`interactionRotation` rewritten; otherwise the painting branch runs and no
existing particle (in particular no flower's hover state) is touched. -/
theorem blossom_C7 (hd : GT.HandData) (st : GT.SketchState) :
    (GT.magnifyCond hd st →
      (GT.handleHandInteraction (some hd) st).treePositions =
          st.treePositions ∧
      (GT.handleHandInteraction (some hd) st).parts.length =
          st.parts.length ∧
      (GT.closestFlowerIdx hd.x hd.y st.parts = none →
        (GT.handleHandInteraction (some hd) st).parts = st.parts) ∧
      (∀ i, GT.closestFlowerIdx hd.x hd.y st.parts = some i →
        (∀ j, j ≠ i →
          (GT.handleHandInteraction (some hd) st).parts.get? j =
            st.parts.get? j) ∧
        (GT.handleHandInteraction (some hd) st).parts.get? i =
          (st.parts.get? i).map (GT.hoverUpd hd.millis hd.fingerAngle) ∧
        ∃ q, st.parts.get? i = some q ∧ q.tag = ParticleType.FLOWER ∧
          distSq hd.x hd.y q.pos.x q.pos.y < 2500 ∧
          ∀ p ∈ st.parts, p.tag = ParticleType.FLOWER →
            distSq hd.x hd.y q.pos.x q.pos.y ≤
              distSq hd.x hd.y p.pos.x p.pos.y)) ∧
    (¬ GT.magnifyCond hd st →
      (GT.handleHandInteraction (some hd) st).parts.take st.parts.length =
        st.parts) := by
  constructor
  · intro hm
    simp only [GT.handleHandInteraction, if_pos hm]
    cases hc : GT.closestFlowerIdx hd.x hd.y st.parts with
    | none =>
      refine ⟨by trivial, by trivial, fun _ => by trivial, fun i hi => ?_⟩
      exact absurd hi (by simp)
    | some i =>
      refine ⟨by trivial, GT.setModify_length _ _ _, fun hn => ?_, ?_⟩
      · exact absurd hn (by simp)
      intro i' hi'
      have hii : i' = i := by simp_all
      subst hii
      exact ⟨fun j hj => GT.setModify_get_ne _ _ _ _ hj,
        GT.setModify_get_eq _ _ _,
        GT.closestFlowerIdx_some hd.x hd.y st.parts i' hc⟩
  · intro hm
    simp only [GT.handleHandInteraction, if_neg hm]
    cases hp : st.prevIndexPos with
    | none => exact List.take_length _
    | some pv =>
      by_cases htp : st.treePositions = []
      · simp only [if_pos htp]
        exact List.take_length _
      · simp only [if_neg htp]
        by_cases hs : GT.stepsOf (GT.velocityOf hd st) = 0
        · simp only [if_pos hs]
          simp [List.take_left]
        · simp only [if_neg hs]
          exact List.take_left _ _

/-- Flower for the C7 witness, sitting exactly under the index tip. -/
def flowerM : GT.Particle := GT.spawnFlower 200 200 0 ⟨0, 1, 0⟩ 0

/-- Sketch state for the C7 witness: one flower, 10 still frames already
counted. -/
def wstM : GT.SketchState := ⟨[flowerM], [], some ⟨200, 200⟩, 10, none⟩

/-- Hand input for the C7 witness: pointing (index distance double the other
fingertips') and perfectly still. -/
def whdM : GT.HandData :=
  ⟨200, 200, 0, 0, 2, 1, 1, 1, 0, 0, 0, 0, fun _ => ⟨0, ⟨0, 1, 0⟩⟩⟩

/-- Witness for C7: in the magnify branch at this concrete input,
`treePositions` is untouched and no flower is spawned. -/
theorem blossom_C7_witness :
    (GT.handleHandInteraction (some whdM) wstM).treePositions =
        wstM.treePositions ∧
      (GT.handleHandInteraction (some whdM) wstM).parts.length =
        wstM.parts.length := by
  have h := (blossom_C7 whdM wstM).1
    (by norm_num [GT.magnifyCond, GT.isPointingOf, GT.fsfNext,
      GT.velocityOf, wstM, whdM])
  exact ⟨h.1, h.2.1⟩

/-- Sketch state for the C5 frame: one live trunk, empty `treePositions`,
a previous index position, zero still frames, no wand. -/
def stC : GT.SketchState := ⟨[wTrunk], [], some ⟨100, 100⟩, 0, none⟩

/-- Hand input for the C5 frame: slow (velocity 1 < 3), not pointing. -/
def hdC : GT.HandData :=
  ⟨200, 200, 0, 0, 0, 1, 1, 1, 0, 1, 0, 0, fun _ => ⟨0, ⟨0, 1, 0⟩⟩⟩

/-- C5 counterexample: one invocation of the per-frame callback on this
concrete state mutates `treePositions` (the trunk's update pushes its
position) and `fingerStillFrames` (the still counter increments) — two
persistent pieces of state besides `parts`, refuting "mutates the drawable
particle list `parts` and no other persistent in-memory collection or
interaction state". -/
theorem blossom_C5_counterexample :
    (GT.frame wEnv (fun _ => wRand) (some (some hdC)) stC).treePositions ≠
        stC.treePositions ∧
      (GT.frame wEnv (fun _ => wRand) (some (some hdC))
          stC).fingerStillFrames ≠ stC.fingerStillFrames := by
  constructor <;>
    norm_num [GT.frame, GT.drawLoop, GT.drawGoRev, GT.update,
      GT.handleHandInteraction, GT.magnifyCond, GT.isPointingOf,
      GT.velocityOf, GT.fsfNext, stC, hdC, wEnv, wRand, wTrunk,
      GT.mkParticle, lerp, mapR, randNeg,
      (by decide : ParticleType.TRUNK ≠ ParticleType.FLOWER),
      (by decide : ParticleType.TRUNK ≠ ParticleType.BRANCH)]

/-- C5 amended: a single invocation of the per-frame callback mutates the
particle list `parts` together with the `treePositions` list and the
interaction state — `prevIndexPos`, `fingerStillFrames` and `wandPos` —
not `parts` alone; here is one frame that changes all five. -/
theorem blossom_C5_amended :
    (GT.frame wEnv (fun _ => wRand) (some (some hdC)) stC).parts ≠
        stC.parts ∧
      (GT.frame wEnv (fun _ => wRand) (some (some hdC)) stC).treePositions ≠
        stC.treePositions ∧
      (GT.frame wEnv (fun _ => wRand) (some (some hdC)) stC).prevIndexPos ≠
        stC.prevIndexPos ∧
      (GT.frame wEnv (fun _ => wRand) (some (some hdC))
          stC).fingerStillFrames ≠ stC.fingerStillFrames ∧
      (GT.frame wEnv (fun _ => wRand) (some (some hdC)) stC).wandPos ≠
        stC.wandPos := by
  refine ⟨?_, ?_, ?_, ?_, ?_⟩ <;>
    norm_num [GT.frame, GT.drawLoop, GT.drawGoRev, GT.update,
      GT.handleHandInteraction, GT.magnifyCond, GT.isPointingOf,
      GT.velocityOf, GT.fsfNext, stC, hdC, wEnv, wRand, wTrunk,
      GT.mkParticle, lerp, mapR, randNeg, Option.some_ne_none,
      (by decide : ParticleType.TRUNK ≠ ParticleType.FLOWER),
      (by decide : ParticleType.TRUNK ≠ ParticleType.BRANCH)]

end Blossom
